import Mathlib

/-!
Verification of the ARC58 abstracted-account controller contract
(`AbstractedAccount` in `abstracted_account.algo.ts`) against its
natural-language specification.

The contract is shallowly embedded: box maps become association lists,
addresses become an inductive type distinguishing ordinary accounts from
application addresses, uint64 values become `Nat`, and every method becomes a
function returning `Option State` (`none` models an assertion failure, which
on the AVM aborts the whole transaction group with no mutation persisting).
-/

/-- An address: either an ordinary account address or the escrow address of an
application. Application addresses are derived by hashing on the AVM, so they
are injective and disjoint from ordinary account addresses. -/
inductive Addr where
  | acct : Nat → Addr
  | ofApp : Nat → Addr
deriving DecidableEq, Repr

/-- The global zero address (`Address.zeroAddress`), used as the wildcard
`allowedCaller` sentinel. -/
def zeroAddr : Addr := Addr.acct 0

/-- Look up the value stored under key `k` in an association list. -/
def lookupKV {α β : Type} [DecidableEq α] (k : α) : List (α × β) → Option β
  | [] => none
  | (k', v) :: rest => if k' = k then some v else lookupKV k rest

/-- Remove every entry with key `k` from an association list
(box `delete` semantics). -/
def eraseKV {α β : Type} [DecidableEq α] (k : α) : List (α × β) → List (α × β)
  | [] => []
  | (k', v) :: rest =>
      if k' = k then eraseKV k rest else (k', v) :: eraseKV k rest

/-- Store `v` under key `k`, overwriting any existing entry
(box assignment semantics). -/
def setKV {α β : Type} [DecidableEq α] (k : α) (v : β) (l : List (α × β)) :
    List (α × β) :=
  (k, v) :: eraseKV k l

theorem lookupKV_erase_self {α β : Type} [DecidableEq α] (k : α)
    (l : List (α × β)) : lookupKV k (eraseKV k l) = none := by
  induction l with
  | nil => rfl
  | cons p rest ih =>
    obtain ⟨k₀, v₀⟩ := p
    by_cases h : k₀ = k
    · simpa [eraseKV, h] using ih
    · simpa [eraseKV, h, lookupKV] using ih

theorem lookupKV_erase_ne {α β : Type} [DecidableEq α] {k k' : α}
    (l : List (α × β)) (h : k' ≠ k) :
    lookupKV k' (eraseKV k l) = lookupKV k' l := by
  induction l with
  | nil => rfl
  | cons p rest ih =>
    obtain ⟨k₀, v₀⟩ := p
    have hks : k ≠ k' := fun hc => h hc.symm
    by_cases hk : k₀ = k
    · simpa [eraseKV, hk, lookupKV, hks] using ih
    · by_cases hk' : k₀ = k'
      · simp [eraseKV, hk, lookupKV, hk', h]
      · simpa [eraseKV, hk, lookupKV, hk'] using ih

theorem lookupKV_set_self {α β : Type} [DecidableEq α] (k : α) (v : β)
    (l : List (α × β)) : lookupKV k (setKV k v l) = some v := by
  simp [setKV, lookupKV]

theorem lookupKV_set_ne {α β : Type} [DecidableEq α] {k k' : α} (v : β)
    (l : List (α × β)) (h : k' ≠ k) :
    lookupKV k' (setKV k v l) = lookupKV k' l := by
  have hne : k ≠ k' := fun hc => h hc.symm
  simp only [setKV, lookupKV, hne, if_false]
  exact lookupKV_erase_ne l h

/-- `PluginsKey` from the contract: the plugin application and the address
allowed to initiate a rekey to it. -/
structure PluginsKey where
  application : Nat
  allowedCaller : Addr
deriving DecidableEq, Repr

/-- `PluginInfo` from the contract: grant metadata stored per `PluginsKey`.
`adminPrivileges` is a `uint8` flag (0 or 1 as written by the contract). -/
structure PluginInfo where
  lastValidRound : Nat
  cooldown : Nat
  lastCalled : Nat
  adminPrivileges : Nat
deriving DecidableEq, Repr

/-- The contract's global state and box storage. -/
structure State where
  version : String
  factoryApp : Nat
  admin : Addr
  controlledAddress : Addr
  revocationApp : Nat
  plugins : List (PluginsKey × PluginInfo)
  passkeys : List (Addr × String)
  namedPlugins : List (String × PluginsKey)
deriving DecidableEq, Repr

/-- Modelled from the spec: the reserved co-admin domain label (the
`AkitaDomain` constant is imported from a constants module not included in
the sources). Its concrete value does not affect any claim. -/
def AkitaDomain : String := "akita"

/-- The method selector of `arc58_verifyAuthAddr()void`, modelled as the
method signature string. -/
def verifyAuthAddrSelector : String := "arc58_verifyAuthAddr()void"

/-- Transaction type enum (only the distinction relevant to the contract's
group scan is kept). -/
inductive TxnType where
  | pay
  | appl
  | other
deriving DecidableEq, Repr

/-- A transaction in the enclosing atomic group, with the fields inspected by
`verifyRekeyToAbstractedAccount`. `rekeyTo = zeroAddr` means no rekey. -/
structure Txn where
  sender : Addr
  rekeyTo : Addr
  typeEnum : TxnType
  applicationID : Nat
  appArgs : List String
deriving DecidableEq, Repr

/-- The first disjunct of the group scan: the transaction is an explicit
rekey back (`sender` and `rekeyTo` both equal the controlled address). -/
def isReturnToSelf (c : Addr) (t : Txn) : Bool :=
  decide (t.sender = c) && decide (t.rekeyTo = c)

/-- The second disjunct of the group scan: the transaction is an application
call to this app's `arc58_verifyAuthAddr` method with exactly one argument. -/
def isVerifyAuthCall (appId : Nat) (t : Txn) : Bool :=
  decide (t.typeEnum = TxnType.appl) && decide (t.applicationID = appId) &&
    (match t.appArgs with
     | [a] => decide (a = verifyAuthAddrSelector)
     | _ => false)

/-- `verifyRekeyToAbstractedAccount`: scan the group from the current index
forward for either an explicit rekey back to the controlled address or a call
to `arc58_verifyAuthAddr` on this app. The contract's loop sets a flag and
breaks at the first match, which is exactly an existential over the suffix. -/
def verifyRekeyBack (c : Addr) (appId : Nat) (group : List Txn)
    (groupIndex : Nat) : Bool :=
  (group.drop groupIndex).any (fun t => isReturnToSelf c t || isVerifyAuthCall appId t)

/-- `getAuthAddr`: the auth address the controlled account should hold when
the app is in control — the zero address when the controlled address is the
app's own escrow address, the app's address otherwise. -/
def getAuthAddr (s : State) (appId : Nat) : Addr :=
  if s.controlledAddress = Addr.ofApp appId then zeroAddr else Addr.ofApp appId

/-- `isAdmin`: the sender is the admin, or holds a passkey bound to the
reserved co-admin domain. -/
def isAdmin (s : State) (sender : Addr) : Bool :=
  decide (sender = s.admin) ||
    (match lookupKV sender s.passkeys with
     | some d => decide (d = AkitaDomain)
     | none => false)

/-- `canRevoke`: the sender is the revocation app's address. -/
def canRevoke (s : State) (sender : Addr) : Bool :=
  decide (sender = Addr.ofApp s.revocationApp)

/-- `pluginCallAllowed`: the grant exists, has not expired
(`lastValidRound >= round`), and is out of cooldown
(`round - lastCalled >= cooldown`). -/
def pluginCallAllowed (s : State) (round : Nat) (app : Nat) (caller : Addr) :
    Bool :=
  match lookupKV ⟨app, caller⟩ s.plugins with
  | none => false
  | some p =>
      decide (p.lastValidRound ≥ round) &&
        decide (round - p.lastCalled ≥ p.cooldown)

/-- The execution environment of one method call: the transaction sender, the
current ledger round, this contract's application id, the controlled
account's current auth address on the ledger, and the enclosing transaction
group together with this call's position in it. -/
structure Ctx where
  sender : Addr
  round : Nat
  appId : Nat
  authAddr : Addr
  group : List Txn
  groupIndex : Nat
deriving Repr

/-- `createApplication`: fails if the admin equals the supplied controlled
address or if the creation is not made from a factory application
(`callerApplicationID = 0`); otherwise initializes the global state. -/
def createApplication (version : String) (controlledAddress admin : Addr)
    (revocationApp : Nat) (callerApplicationID : Nat) (appId : Nat) :
    Option State :=
  if admin = controlledAddress then none
  else if callerApplicationID = 0 then none
  else some
    { version := version
      factoryApp := callerApplicationID
      admin := admin
      controlledAddress :=
        if controlledAddress = zeroAddr then Addr.ofApp appId
        else controlledAddress
      revocationApp := revocationApp
      plugins := []
      passkeys := []
      namedPlugins := [] }

/-- `updateApplication`: admin-only version bump. -/
def updateApplication (s : State) (sender : Addr) (version : String) :
    Option State :=
  if isAdmin s sender then some { s with version := version } else none

/-- `changeRevocationApp`: admin-only replacement of the revocation app. -/
def changeRevocationApp (s : State) (sender : Addr) (newRevocationApp : Nat) :
    Option State :=
  if isAdmin s sender then some { s with revocationApp := newRevocationApp }
  else none

/-- `arc58_changeAdmin`: admin-only replacement of the admin address. -/
def arc58_changeAdmin (s : State) (sender newAdmin : Addr) : Option State :=
  if isAdmin s sender then some { s with admin := newAdmin } else none

/-- `arc58_pluginChangeAdmin`: the sender must be the plugin's application
address, the controlled account must currently be rekeyed to the plugin, and
the grant at `(plugin, allowedCaller)` must exist with admin privileges;
then the admin is overwritten. -/
def arc58_pluginChangeAdmin (s : State) (sender authAddr : Addr)
    (plugin : Nat) (allowedCaller newAdmin : Addr) : Option State :=
  if sender = Addr.ofApp plugin then
    if authAddr = Addr.ofApp plugin then
      match lookupKV ⟨plugin, allowedCaller⟩ s.plugins with
      | some p =>
          if p.adminPrivileges ≠ 0 then some { s with admin := newAdmin }
          else none
      | none => none
    else none
  else none

/-- `arc58_verifyAuthAddr`: asserts the controlled account's auth address is
what it should be when the app is in control. -/
def arc58_verifyAuthAddr (s : State) (appId : Nat) (authAddr : Addr) :
    Option State :=
  if authAddr = getAuthAddr s appId then some s else none

/-- `arc58_rekeyTo`: admin-only rekey of the controlled account to an
arbitrary address (the rekey itself is a ledger effect outside this state),
followed by the group scan requiring a return of authority. -/
def arc58_rekeyTo (s : State) (ctx : Ctx) (addr : Addr) : Option State :=
  if isAdmin s ctx.sender then
    if verifyRekeyBack s.controlledAddress ctx.appId ctx.group ctx.groupIndex
    then some s
    else none
  else none

/-- `arc58_rekeyToPlugin`: the wildcard grant `(plugin, zeroAddr)` is
evaluated first; only if it is not allowed is the caller-specific grant
checked. On success the matched grant's `lastCalled` is stamped with the
current round and the group scan must find a return of authority. -/
def arc58_rekeyToPlugin (s : State) (ctx : Ctx) (plugin : Nat) :
    Option State :=
  let globalAllowed := pluginCallAllowed s ctx.round plugin zeroAddr
  if !globalAllowed && !(pluginCallAllowed s ctx.round plugin ctx.sender) then
    none
  else
    let key : PluginsKey :=
      ⟨plugin, if globalAllowed then zeroAddr else ctx.sender⟩
    match lookupKV key s.plugins with
    | none => none
    | some p =>
        let s' : State :=
          { s with plugins := setKV key { p with lastCalled := ctx.round } s.plugins }
        if verifyRekeyBack s'.controlledAddress ctx.appId ctx.group
            ctx.groupIndex
        then some s'
        else none

/-- `arc58_rekeyToNamedPlugin`: resolves the name to its `PluginsKey` (the
box read fails if the name is unknown) and delegates to
`arc58_rekeyToPlugin` on the resolved application. -/
def arc58_rekeyToNamedPlugin (s : State) (ctx : Ctx) (name : String) :
    Option State :=
  match lookupKV name s.namedPlugins with
  | none => none
  | some k => arc58_rekeyToPlugin s ctx k.application

/-- `arc58_addPlugin`: admin-only; overwrites the grant at
`(app, allowedCaller)` with fresh metadata (`lastCalled = 0`); when
registering a passkey the domain must be non-empty and is bound to the
allowed caller. -/
def arc58_addPlugin (s : State) (sender : Addr) (app : Nat)
    (allowedCaller : Addr) (lastValidRound cooldown : Nat)
    (adminPrivileges isPasskey : Bool) (domain : String) : Option State :=
  if isAdmin s sender then
    let key : PluginsKey := ⟨app, allowedCaller⟩
    let info : PluginInfo :=
      { lastValidRound := lastValidRound
        cooldown := cooldown
        lastCalled := 0
        adminPrivileges := if adminPrivileges then 1 else 0 }
    let s1 : State := { s with plugins := setKV key info s.plugins }
    if isPasskey then
      if domain.length > 0 then
        some { s1 with passkeys := setKV allowedCaller domain s1.passkeys }
      else none
    else some s1
  else none

/-- `arc58_removePlugin`: admin or revocation app; deletes the grant at
`(app, allowedCaller)`. -/
def arc58_removePlugin (s : State) (sender : Addr) (app : Nat)
    (allowedCaller : Addr) : Option State :=
  if isAdmin s sender || canRevoke s sender then
    some { s with plugins := eraseKV ⟨app, allowedCaller⟩ s.plugins }
  else none

/-- `arc58_addNamedPlugin`: admin-only; fails if the name is already
registered; otherwise records the name mapping and overwrites the grant at
`(app, allowedCaller)` with fresh metadata. -/
def arc58_addNamedPlugin (s : State) (sender : Addr) (name : String)
    (app : Nat) (allowedCaller : Addr) (lastValidRound cooldown : Nat)
    (adminPrivileges : Bool) : Option State :=
  if isAdmin s sender then
    if (lookupKV name s.namedPlugins).isSome then none
    else
      let key : PluginsKey := ⟨app, allowedCaller⟩
      let info : PluginInfo :=
        { lastValidRound := lastValidRound
          cooldown := cooldown
          lastCalled := 0
          adminPrivileges := if adminPrivileges then 1 else 0 }
      some { s with
              namedPlugins := setKV name key s.namedPlugins
              plugins := setKV key info s.plugins }
  else none

/-- `arc58_removeNamedPlugin`: admin or revocation app; resolves the name
(the box read fails if unknown) and deletes both the name mapping and the
grant at the resolved key. -/
def arc58_removeNamedPlugin (s : State) (sender : Addr) (name : String) :
    Option State :=
  if isAdmin s sender || canRevoke s sender then
    match lookupKV name s.namedPlugins with
    | none => none
    | some k =>
        some { s with
                namedPlugins := eraseKV name s.namedPlugins
                plugins := eraseKV k s.plugins }
  else none

/-- One call of any method of the deployed contract, with its arguments. -/
inductive Op where
  | updateApp (version : String)
  | changeRevocation (newRevocationApp : Nat)
  | changeAdmin (newAdmin : Addr)
  | pluginChangeAdmin (plugin : Nat) (allowedCaller newAdmin : Addr)
  | verifyAuthAddr
  | rekeyTo (addr : Addr)
  | rekeyToPlugin (plugin : Nat)
  | rekeyToNamedPlugin (name : String)
  | addPlugin (app : Nat) (allowedCaller : Addr)
      (lastValidRound cooldown : Nat) (adminPrivileges isPasskey : Bool)
      (domain : String)
  | removePlugin (app : Nat) (allowedCaller : Addr)
  | addNamedPlugin (name : String) (app : Nat) (allowedCaller : Addr)
      (lastValidRound cooldown : Nat) (adminPrivileges : Bool)
  | removeNamedPlugin (name : String)
deriving DecidableEq, Repr

/-- Dispatch one method call in environment `ctx`; `none` means the call's
assertions failed and the whole group is rejected with no mutation. -/
def step (s : State) (ctx : Ctx) : Op → Option State
  | .updateApp v => updateApplication s ctx.sender v
  | .changeRevocation r => changeRevocationApp s ctx.sender r
  | .changeAdmin a => arc58_changeAdmin s ctx.sender a
  | .pluginChangeAdmin p c a =>
      arc58_pluginChangeAdmin s ctx.sender ctx.authAddr p c a
  | .verifyAuthAddr => arc58_verifyAuthAddr s ctx.appId ctx.authAddr
  | .rekeyTo a => arc58_rekeyTo s ctx a
  | .rekeyToPlugin p => arc58_rekeyToPlugin s ctx p
  | .rekeyToNamedPlugin n => arc58_rekeyToNamedPlugin s ctx n
  | .addPlugin a c lvr cd priv pk dom =>
      arc58_addPlugin s ctx.sender a c lvr cd priv pk dom
  | .removePlugin a c => arc58_removePlugin s ctx.sender a c
  | .addNamedPlugin n a c lvr cd priv =>
      arc58_addNamedPlugin s ctx.sender n a c lvr cd priv
  | .removeNamedPlugin n => arc58_removeNamedPlugin s ctx.sender n

/-- States reachable from contract creation through method calls. -/
inductive Reachable : State → Prop where
  | created : ∀ version controlledAddress admin revocationApp
      callerApplicationID appId s,
      createApplication version controlledAddress admin revocationApp
        callerApplicationID appId = some s → Reachable s
  | stepped : ∀ s ctx op s', Reachable s → step s ctx op = some s' →
      Reachable s'

/-- C4: `pluginCallAllowed` returns false when no grant exists at
`(app, caller)`; returns false when the round has passed `lastValidRound`,
regardless of cooldown; and for an existing, unexpired grant it returns true
iff `round - lastCalled ≥ cooldown`. -/
theorem pluginCallAllowed_spec (s : State) (round app : Nat) (caller : Addr) :
    (lookupKV ⟨app, caller⟩ s.plugins = none →
      pluginCallAllowed s round app caller = false) ∧
    (∀ p, lookupKV ⟨app, caller⟩ s.plugins = some p →
      round > p.lastValidRound →
      pluginCallAllowed s round app caller = false) ∧
    (∀ p, lookupKV ⟨app, caller⟩ s.plugins = some p →
      round ≤ p.lastValidRound →
      (pluginCallAllowed s round app caller = true ↔
        round - p.lastCalled ≥ p.cooldown)) := by
  refine ⟨fun h => ?_, fun p h hexp => ?_, fun p h hval => ?_⟩
  · simp [pluginCallAllowed, h]
  · have : ¬ (p.lastValidRound ≥ round) := by omega
    simp [pluginCallAllowed, h, this]
  · simp [pluginCallAllowed, h, hval]

/-- Witness for `pluginCallAllowed_spec` at concrete inputs: a state with a
single grant `(50, zeroAddr) ↦ ⟨100, 5, 20, 0⟩`. -/
def c4State : State :=
  { version := "1"
    factoryApp := 9
    admin := Addr.acct 2
    controlledAddress := Addr.acct 1
    revocationApp := 7
    plugins := [(⟨50, zeroAddr⟩, ⟨100, 5, 20, 0⟩)]
    passkeys := []
    namedPlugins := [] }

theorem pluginCallAllowed_spec_witness :
    pluginCallAllowed c4State 30 51 zeroAddr = false ∧
    pluginCallAllowed c4State 101 50 zeroAddr = false ∧
    (pluginCallAllowed c4State 24 50 zeroAddr = true ↔ 24 - 20 ≥ 5) :=
  ⟨(pluginCallAllowed_spec c4State 30 51 zeroAddr).1 (by decide),
   (pluginCallAllowed_spec c4State 101 50 zeroAddr).2.1 ⟨100, 5, 20, 0⟩
     (by decide) (by decide),
   (pluginCallAllowed_spec c4State 24 50 zeroAddr).2.2 ⟨100, 5, 20, 0⟩
     (by decide) (by decide)⟩

/-- C8: `createApplication` fails when the supplied admin equals the supplied
controlled address, fails when not invoked from a factory application
(caller application id zero), and otherwise initializes the version, factory,
admin, revocation app, and controlled address (substituting the app's own
escrow address when the zero address is supplied). -/
theorem createApplication_spec (version : String)
    (controlledAddress admin : Addr)
    (revocationApp callerApplicationID appId : Nat) :
    (admin = controlledAddress →
      createApplication version controlledAddress admin revocationApp
        callerApplicationID appId = none) ∧
    (callerApplicationID = 0 →
      createApplication version controlledAddress admin revocationApp
        callerApplicationID appId = none) ∧
    (admin ≠ controlledAddress → callerApplicationID ≠ 0 →
      createApplication version controlledAddress admin revocationApp
        callerApplicationID appId = some
        { version := version
          factoryApp := callerApplicationID
          admin := admin
          controlledAddress :=
            if controlledAddress = zeroAddr then Addr.ofApp appId
            else controlledAddress
          revocationApp := revocationApp
          plugins := []
          passkeys := []
          namedPlugins := [] }) := by
  refine ⟨fun h => ?_, fun h => ?_, fun h h0 => ?_⟩
  · simp [createApplication, h]
  · simp [createApplication, h]
  · simp [createApplication, h, h0]

theorem createApplication_spec_witness :
    createApplication "1" (Addr.acct 1) (Addr.acct 1) 7 9 100 = none ∧
    createApplication "1" (Addr.acct 1) (Addr.acct 2) 7 0 100 = none ∧
    createApplication "1" zeroAddr (Addr.acct 2) 7 9 100 = some
      { version := "1"
        factoryApp := 9
        admin := Addr.acct 2
        controlledAddress := Addr.ofApp 100
        revocationApp := 7
        plugins := []
        passkeys := []
        namedPlugins := [] } :=
  ⟨(createApplication_spec "1" (Addr.acct 1) (Addr.acct 1) 7 9 100).1 rfl,
   (createApplication_spec "1" (Addr.acct 1) (Addr.acct 2) 7 0 100).2.1 rfl,
   by
     have h := (createApplication_spec "1" zeroAddr (Addr.acct 2) 7 9 100).2.2
       (by decide) (by decide)
     simpa using h⟩

/-- C2: `arc58_pluginChangeAdmin` succeeds, overwriting the admin with
`newAdmin`, iff the sender is the plugin's application address, the
controlled account's auth address is the plugin's address, and the grant at
`(plugin, allowedCaller)` exists with admin privileges; every success
changes only the admin, and the call fails (no state change) whenever the
grant exists without admin privileges. -/
theorem pluginChangeAdmin_spec (s : State) (sender authAddr : Addr)
    (plugin : Nat) (allowedCaller newAdmin : Addr) :
    (arc58_pluginChangeAdmin s sender authAddr plugin allowedCaller newAdmin =
        some { s with admin := newAdmin } ↔
      sender = Addr.ofApp plugin ∧ authAddr = Addr.ofApp plugin ∧
        ∃ p, lookupKV ⟨plugin, allowedCaller⟩ s.plugins = some p ∧
          p.adminPrivileges ≠ 0) ∧
    (∀ s', arc58_pluginChangeAdmin s sender authAddr plugin allowedCaller
        newAdmin = some s' → s' = { s with admin := newAdmin }) ∧
    (∀ p, lookupKV ⟨plugin, allowedCaller⟩ s.plugins = some p →
      p.adminPrivileges = 0 →
      arc58_pluginChangeAdmin s sender authAddr plugin allowedCaller
        newAdmin = none) := by
  refine ⟨⟨fun h => ?_, fun h => ?_⟩, fun s' h => ?_, fun p hl hp => ?_⟩
  · by_cases h1 : sender = Addr.ofApp plugin
    · by_cases h2 : authAddr = Addr.ofApp plugin
      · cases hl : lookupKV ⟨plugin, allowedCaller⟩ s.plugins with
        | none => simp [arc58_pluginChangeAdmin, h1, h2, hl] at h
        | some p =>
            by_cases hp : p.adminPrivileges = 0
            · simp [arc58_pluginChangeAdmin, h1, h2, hl, hp] at h
            · exact ⟨h1, h2, p, rfl, hp⟩
      · simp [arc58_pluginChangeAdmin, h1, h2] at h
    · simp [arc58_pluginChangeAdmin, h1] at h
  · obtain ⟨h1, h2, p, hl, hp⟩ := h
    simp [arc58_pluginChangeAdmin, h1, h2, hl, hp]
  · by_cases h1 : sender = Addr.ofApp plugin
    · by_cases h2 : authAddr = Addr.ofApp plugin
      · cases hl : lookupKV ⟨plugin, allowedCaller⟩ s.plugins with
        | none => simp [arc58_pluginChangeAdmin, h1, h2, hl] at h
        | some p =>
            by_cases hp : p.adminPrivileges = 0
            · simp [arc58_pluginChangeAdmin, h1, h2, hl, hp] at h
            · simp [arc58_pluginChangeAdmin, h1, h2, hl, hp] at h
              exact h.symm
      · simp [arc58_pluginChangeAdmin, h1, h2] at h
    · simp [arc58_pluginChangeAdmin, h1] at h
  · by_cases h1 : sender = Addr.ofApp plugin
    · by_cases h2 : authAddr = Addr.ofApp plugin
      · simp [arc58_pluginChangeAdmin, h1, h2, hl, hp]
      · simp [arc58_pluginChangeAdmin, h1, h2]
    · simp [arc58_pluginChangeAdmin, h1]

/-- The state used by `pluginChangeAdmin_spec_witness`: plugin 50 has a
privileged wildcard grant and an unprivileged grant for caller 3. -/
def c2State : State :=
  { version := "1"
    factoryApp := 9
    admin := Addr.acct 2
    controlledAddress := Addr.acct 1
    revocationApp := 7
    plugins := [(⟨50, zeroAddr⟩, ⟨1000, 0, 0, 1⟩),
                (⟨50, Addr.acct 3⟩, ⟨1000, 0, 0, 0⟩)]
    passkeys := []
    namedPlugins := [] }

theorem pluginChangeAdmin_spec_witness :
    arc58_pluginChangeAdmin c2State (Addr.ofApp 50) (Addr.ofApp 50) 50
        zeroAddr (Addr.acct 4) =
      some { c2State with admin := Addr.acct 4 } ∧
    arc58_pluginChangeAdmin c2State (Addr.ofApp 50) (Addr.ofApp 50) 50
        (Addr.acct 3) (Addr.acct 4) = none :=
  ⟨(pluginChangeAdmin_spec c2State (Addr.ofApp 50) (Addr.ofApp 50) 50
      zeroAddr (Addr.acct 4)).1.mpr
      ⟨rfl, rfl, ⟨1000, 0, 0, 1⟩, by decide, by decide⟩,
   (pluginChangeAdmin_spec c2State (Addr.ofApp 50) (Addr.ofApp 50) 50
      (Addr.acct 3) (Addr.acct 4)).2.2 ⟨1000, 0, 0, 0⟩ (by decide) rfl⟩

theorem pluginCallAllowed_lookup {s : State} {round app : Nat} {caller : Addr}
    (h : pluginCallAllowed s round app caller = true) :
    ∃ p, lookupKV ⟨app, caller⟩ s.plugins = some p := by
  unfold pluginCallAllowed at h
  cases hl : lookupKV ⟨app, caller⟩ s.plugins with
  | none => rw [hl] at h; cases h
  | some p => exact ⟨p, rfl⟩

/-- C3: under the presence of a later return-of-authority step in the group,
`arc58_rekeyToPlugin` succeeds iff the wildcard grant or the caller-specific
grant is allowed; the wildcard grant is consulted first, and the grant whose
`lastCalled` is stamped is the wildcard grant when it is allowed and the
caller-specific grant only otherwise. -/
theorem rekeyToPlugin_spec (s : State) (ctx : Ctx) (plugin : Nat)
    (hback : verifyRekeyBack s.controlledAddress ctx.appId ctx.group
      ctx.groupIndex = true) :
    ((arc58_rekeyToPlugin s ctx plugin).isSome = true ↔
      pluginCallAllowed s ctx.round plugin zeroAddr = true ∨
      pluginCallAllowed s ctx.round plugin ctx.sender = true) ∧
    (∀ p, pluginCallAllowed s ctx.round plugin zeroAddr = true →
      lookupKV ⟨plugin, zeroAddr⟩ s.plugins = some p →
      arc58_rekeyToPlugin s ctx plugin = some { s with
        plugins := setKV ⟨plugin, zeroAddr⟩ { p with lastCalled := ctx.round }
          s.plugins }) ∧
    (∀ p, pluginCallAllowed s ctx.round plugin zeroAddr = false →
      pluginCallAllowed s ctx.round plugin ctx.sender = true →
      lookupKV ⟨plugin, ctx.sender⟩ s.plugins = some p →
      arc58_rekeyToPlugin s ctx plugin = some { s with
        plugins := setKV ⟨plugin, ctx.sender⟩
          { p with lastCalled := ctx.round } s.plugins }) := by
  refine ⟨?_, fun p hg hl => ?_, fun p hg hs hl => ?_⟩
  · cases hG : pluginCallAllowed s ctx.round plugin zeroAddr with
    | true =>
        obtain ⟨p, hl⟩ := pluginCallAllowed_lookup hG
        simp [arc58_rekeyToPlugin, hG, hl, hback]
    | false =>
        cases hS : pluginCallAllowed s ctx.round plugin ctx.sender with
        | true =>
            obtain ⟨p, hl⟩ := pluginCallAllowed_lookup hS
            simp [arc58_rekeyToPlugin, hG, hS, hl, hback]
        | false => simp [arc58_rekeyToPlugin, hG, hS]
  · simp [arc58_rekeyToPlugin, hg, hl, hback]
  · simp [arc58_rekeyToPlugin, hg, hs, hl, hback]

/-- The state used by `rekeyToPlugin_spec_witness`: plugin 50 has only a
wildcard grant; no grant exists for the calling account 3. -/
def c3State : State :=
  { version := "1"
    factoryApp := 9
    admin := Addr.acct 2
    controlledAddress := Addr.acct 1
    revocationApp := 7
    plugins := [(⟨50, zeroAddr⟩, ⟨1000, 0, 0, 0⟩)]
    passkeys := []
    namedPlugins := [] }

/-- A group whose only transaction is a call to `arc58_verifyAuthAddr` on
app 100, satisfying the return-of-authority scan. -/
def c3Ctx : Ctx :=
  { sender := Addr.acct 3
    round := 5
    appId := 100
    authAddr := Addr.acct 1
    group := [{ sender := Addr.acct 3
                rekeyTo := zeroAddr
                typeEnum := TxnType.appl
                applicationID := 100
                appArgs := [verifyAuthAddrSelector] }]
    groupIndex := 0 }

theorem rekeyToPlugin_spec_witness :
    arc58_rekeyToPlugin c3State c3Ctx 50 = some { c3State with
      plugins := setKV ⟨50, zeroAddr⟩ ⟨1000, 0, 5, 0⟩ c3State.plugins } :=
  (rekeyToPlugin_spec c3State c3Ctx 50 (by decide)).2.1 ⟨1000, 0, 0, 0⟩
    (by decide) (by decide)

theorem rekeyToPlugin_none_of_no_return (s : State) (ctx : Ctx) (plugin : Nat)
    (hvb : verifyRekeyBack s.controlledAddress ctx.appId ctx.group
      ctx.groupIndex = false) :
    arc58_rekeyToPlugin s ctx plugin = none := by
  cases hG : pluginCallAllowed s ctx.round plugin zeroAddr with
  | true =>
      obtain ⟨p, hl⟩ := pluginCallAllowed_lookup hG
      simp [arc58_rekeyToPlugin, hG, hl, hvb]
  | false =>
      cases hS : pluginCallAllowed s ctx.round plugin ctx.sender with
      | true =>
          obtain ⟨p, hl⟩ := pluginCallAllowed_lookup hS
          simp [arc58_rekeyToPlugin, hG, hS, hl, hvb]
      | false => simp [arc58_rekeyToPlugin, hG, hS]

/-- C1: if no transaction at or after the delegating call's position in the
group is an explicit rekey of the controlled address back to itself or a
call to this app's `arc58_verifyAuthAddr`, then every delegating operation
(`arc58_rekeyTo`, `arc58_rekeyToPlugin`, `arc58_rekeyToNamedPlugin`) fails,
rejecting the whole group with no mutation. -/
theorem delegation_requires_return (s : State) (ctx : Ctx)
    (hscan : ∀ t ∈ ctx.group.drop ctx.groupIndex,
      isReturnToSelf s.controlledAddress t = false ∧
      isVerifyAuthCall ctx.appId t = false) :
    (∀ a, step s ctx (Op.rekeyTo a) = none) ∧
    (∀ p, step s ctx (Op.rekeyToPlugin p) = none) ∧
    (∀ n, step s ctx (Op.rekeyToNamedPlugin n) = none) := by
  have hvb : verifyRekeyBack s.controlledAddress ctx.appId ctx.group
      ctx.groupIndex = false := by
    unfold verifyRekeyBack
    rw [List.any_eq_false]
    intro t ht
    have h := hscan t ht
    simp [h.1, h.2]
  refine ⟨fun a => ?_, fun p => ?_, fun n => ?_⟩
  · simp [step, arc58_rekeyTo, hvb]
  · simpa [step] using rekeyToPlugin_none_of_no_return s ctx p hvb
  · cases hn : lookupKV n s.namedPlugins with
    | none => simp [step, arc58_rekeyToNamedPlugin, hn]
    | some k =>
        simp [step, arc58_rekeyToNamedPlugin, hn,
          rekeyToPlugin_none_of_no_return s ctx k.application hvb]

/-- The state used by `delegation_requires_return_witness`: plugin 50 has an
active wildcard grant, also registered under the name `x`. -/
def c1State : State :=
  { version := "1"
    factoryApp := 9
    admin := Addr.acct 2
    controlledAddress := Addr.acct 1
    revocationApp := 7
    plugins := [(⟨50, zeroAddr⟩, ⟨1000, 0, 0, 0⟩)]
    passkeys := []
    namedPlugins := [("x", ⟨50, zeroAddr⟩)] }

/-- A context whose group holds no return-of-authority transaction at all,
with the admin itself as sender. -/
def c1Ctx : Ctx :=
  { sender := Addr.acct 2
    round := 5
    appId := 100
    authAddr := Addr.acct 1
    group := []
    groupIndex := 0 }

theorem delegation_requires_return_witness :
    step c1State c1Ctx (Op.rekeyTo (Addr.acct 5)) = none ∧
    step c1State c1Ctx (Op.rekeyToPlugin 50) = none ∧
    step c1State c1Ctx (Op.rekeyToNamedPlugin "x") = none :=
  ⟨(delegation_requires_return c1State c1Ctx (by decide)).1 (Addr.acct 5),
   (delegation_requires_return c1State c1Ctx (by decide)).2.1 50,
   (delegation_requires_return c1State c1Ctx (by decide)).2.2 "x"⟩

/-- C7: `arc58_addNamedPlugin` fails on an already-registered name with no
state change; for a fresh name with an admin sender it creates both the name
mapping and the underlying grant; and after a successful call, repeating the
call with identical arguments fails, so the state equals the state after the
first call only. -/
theorem addNamedPlugin_spec (s : State) (sender : Addr) (name : String)
    (app : Nat) (allowedCaller : Addr) (lastValidRound cooldown : Nat)
    (adminPrivileges : Bool) :
    ((lookupKV name s.namedPlugins).isSome = true →
      arc58_addNamedPlugin s sender name app allowedCaller lastValidRound
        cooldown adminPrivileges = none) ∧
    (isAdmin s sender = true → lookupKV name s.namedPlugins = none →
      arc58_addNamedPlugin s sender name app allowedCaller lastValidRound
        cooldown adminPrivileges = some { s with
          namedPlugins := setKV name ⟨app, allowedCaller⟩ s.namedPlugins
          plugins := setKV ⟨app, allowedCaller⟩
            ⟨lastValidRound, cooldown, 0, if adminPrivileges then 1 else 0⟩
            s.plugins }) ∧
    (∀ s', arc58_addNamedPlugin s sender name app allowedCaller lastValidRound
        cooldown adminPrivileges = some s' →
      arc58_addNamedPlugin s' sender name app allowedCaller lastValidRound
        cooldown adminPrivileges = none) := by
  refine ⟨fun hdup => ?_, fun ha hfresh => ?_, fun s' hsucc => ?_⟩
  · by_cases ha : isAdmin s sender = true
    · simp [arc58_addNamedPlugin, ha, hdup]
    · simp [arc58_addNamedPlugin, ha]
  · simp [arc58_addNamedPlugin, ha, hfresh]
  · by_cases ha : isAdmin s sender = true
    · by_cases hdup : (lookupKV name s.namedPlugins).isSome = true
      · simp [arc58_addNamedPlugin, ha, hdup] at hsucc
      · simp [arc58_addNamedPlugin, ha, hdup] at hsucc
        have hname : (lookupKV name s'.namedPlugins).isSome = true := by
          rw [← hsucc]
          simp [lookupKV_set_self]
        by_cases ha' : isAdmin s' sender = true
        · simp [arc58_addNamedPlugin, ha', hname]
        · simp [arc58_addNamedPlugin, ha']
    · simp [arc58_addNamedPlugin, ha] at hsucc

/-- The state used by `addNamedPlugin_spec_witness`: the name `x` is
registered, the name `y` is not; the sender account 2 is the admin. -/
def c7State : State :=
  { version := "1"
    factoryApp := 9
    admin := Addr.acct 2
    controlledAddress := Addr.acct 1
    revocationApp := 7
    plugins := [(⟨50, zeroAddr⟩, ⟨1000, 0, 0, 0⟩)]
    passkeys := []
    namedPlugins := [("x", ⟨50, zeroAddr⟩)] }

theorem addNamedPlugin_spec_witness :
    arc58_addNamedPlugin c7State (Addr.acct 2) "x" 60 zeroAddr 1000 0 false =
      none ∧
    arc58_addNamedPlugin c7State (Addr.acct 2) "y" 60 zeroAddr 1000 0 false =
      some { c7State with
        namedPlugins := setKV "y" ⟨60, zeroAddr⟩ c7State.namedPlugins
        plugins := setKV ⟨60, zeroAddr⟩ ⟨1000, 0, 0, 0⟩ c7State.plugins } ∧
    arc58_addNamedPlugin { c7State with
        namedPlugins := setKV "y" ⟨60, zeroAddr⟩ c7State.namedPlugins
        plugins := setKV ⟨60, zeroAddr⟩ ⟨1000, 0, 0, 0⟩ c7State.plugins }
      (Addr.acct 2) "y" 60 zeroAddr 1000 0 false = none :=
  ⟨(addNamedPlugin_spec c7State (Addr.acct 2) "x" 60 zeroAddr 1000 0
      false).1 (by decide),
   (addNamedPlugin_spec c7State (Addr.acct 2) "y" 60 zeroAddr 1000 0
      false).2.1 (by decide) (by decide),
   (addNamedPlugin_spec c7State (Addr.acct 2) "y" 60 zeroAddr 1000 0
      false).2.2 _ ((addNamedPlugin_spec c7State (Addr.acct 2) "y" 60 zeroAddr
        1000 0 false).2.1 (by decide) (by decide))⟩

/-- C9: a successful `arc58_removePlugin` deletes exactly the grant at
`(app, allowedCaller)`: every other grant, every passkey domain binding,
every name mapping, and the admin, revocation app, controlled address,
version and factory records are unchanged. -/
theorem removePlugin_spec (s : State) (sender : Addr) (app : Nat)
    (allowedCaller : Addr) (s' : State)
    (h : arc58_removePlugin s sender app allowedCaller = some s') :
    lookupKV ⟨app, allowedCaller⟩ s'.plugins = none ∧
    (∀ k, k ≠ (⟨app, allowedCaller⟩ : PluginsKey) →
      lookupKV k s'.plugins = lookupKV k s.plugins) ∧
    s'.passkeys = s.passkeys ∧
    s'.namedPlugins = s.namedPlugins ∧
    s'.admin = s.admin ∧
    s'.revocationApp = s.revocationApp ∧
    s'.controlledAddress = s.controlledAddress ∧
    s'.version = s.version ∧
    s'.factoryApp = s.factoryApp := by
  by_cases hauth : (isAdmin s sender || canRevoke s sender) = true
  · simp [arc58_removePlugin, hauth] at h
    subst h
    exact ⟨lookupKV_erase_self _ _, fun k hk => lookupKV_erase_ne _ hk,
      rfl, rfl, rfl, rfl, rfl, rfl, rfl⟩
  · simp [arc58_removePlugin, hauth] at h

theorem removePlugin_spec_witness :
    lookupKV ⟨50, zeroAddr⟩
      (eraseKV (⟨50, zeroAddr⟩ : PluginsKey) c7State.plugins) = none ∧
    (eraseKV (⟨50, zeroAddr⟩ : PluginsKey) c7State.plugins : List _) =
      [] ∧
    ({ c7State with
        plugins := eraseKV ⟨50, zeroAddr⟩ c7State.plugins } : State).passkeys =
      c7State.passkeys :=
  ⟨(removePlugin_spec c7State (Addr.acct 2) 50 zeroAddr
      { c7State with plugins := eraseKV ⟨50, zeroAddr⟩ c7State.plugins }
      (by decide)).1,
   by decide,
   (removePlugin_spec c7State (Addr.acct 2) 50 zeroAddr
      { c7State with plugins := eraseKV ⟨50, zeroAddr⟩ c7State.plugins }
      (by decide)).2.2.1⟩

/-- C10: a successful `arc58_addNamedPlugin` with a fresh name whose grant
key already holds a grant silently overwrites that grant, replacing its
expiry, cooldown and admin privilege, and resetting `lastCalled` to 0. -/
theorem addNamedPlugin_overwrites_grant (s : State) (sender : Addr)
    (name : String) (app : Nat) (allowedCaller : Addr)
    (lastValidRound cooldown : Nat) (adminPrivileges : Bool)
    (oldp : PluginInfo)
    (ha : isAdmin s sender = true)
    (hfresh : lookupKV name s.namedPlugins = none)
    (hold : lookupKV ⟨app, allowedCaller⟩ s.plugins = some oldp) :
    ∃ s', arc58_addNamedPlugin s sender name app allowedCaller lastValidRound
        cooldown adminPrivileges = some s' ∧
      lookupKV ⟨app, allowedCaller⟩ s'.plugins = some
        ⟨lastValidRound, cooldown, 0, if adminPrivileges then 1 else 0⟩ := by
  refine ⟨_, (addNamedPlugin_spec s sender name app allowedCaller
    lastValidRound cooldown adminPrivileges).2.1 ha hfresh, ?_⟩
  simp [lookupKV_set_self]

theorem addNamedPlugin_overwrites_grant_witness :
    ∃ s', arc58_addNamedPlugin c7State (Addr.acct 2) "y" 50 zeroAddr 99 3
        true = some s' ∧
      lookupKV (⟨50, zeroAddr⟩ : PluginsKey) s'.plugins =
        some ⟨99, 3, 0, 1⟩ :=
  addNamedPlugin_overwrites_grant c7State (Addr.acct 2) "y" 50 zeroAddr 99 3
    true ⟨1000, 0, 0, 0⟩ (by decide) (by decide) (by decide)

theorem rekeyToPlugin_some_shape (s : State) (ctx : Ctx) (plugin : Nat)
    (s' : State) (h : arc58_rekeyToPlugin s ctx plugin = some s') :
    ∃ key q, lookupKV key s.plugins = some q ∧
      s' = { s with
        plugins := setKV key { q with lastCalled := ctx.round } s.plugins } := by
  cases hG : pluginCallAllowed s ctx.round plugin zeroAddr with
  | true =>
      cases hl : lookupKV ⟨plugin, zeroAddr⟩ s.plugins with
      | none => simp [arc58_rekeyToPlugin, hG, hl] at h
      | some q =>
          by_cases hvb : verifyRekeyBack s.controlledAddress ctx.appId
              ctx.group ctx.groupIndex = true
          · simp [arc58_rekeyToPlugin, hG, hl, hvb] at h
            exact ⟨⟨plugin, zeroAddr⟩, q, hl, h.symm⟩
          · simp [arc58_rekeyToPlugin, hG, hl, hvb] at h
  | false =>
      cases hS : pluginCallAllowed s ctx.round plugin ctx.sender with
      | false => simp [arc58_rekeyToPlugin, hG, hS] at h
      | true =>
          cases hl : lookupKV ⟨plugin, ctx.sender⟩ s.plugins with
          | none => simp [arc58_rekeyToPlugin, hG, hS, hl] at h
          | some q =>
              by_cases hvb : verifyRekeyBack s.controlledAddress ctx.appId
                  ctx.group ctx.groupIndex = true
              · simp [arc58_rekeyToPlugin, hG, hS, hl, hvb] at h
                exact ⟨⟨plugin, ctx.sender⟩, q, hl, h.symm⟩
              · simp [arc58_rekeyToPlugin, hG, hS, hl, hvb] at h

/-- Operations that create or overwrite a grant with fresh metadata. -/
def Op.createsGrant : Op → Bool
  | Op.addPlugin _ _ _ _ _ _ _ => true
  | Op.addNamedPlugin _ _ _ _ _ _ => true
  | _ => false

theorem step_plugins_shape (s : State) (ctx : Ctx) (op : Op) (s' : State)
    (hop : Op.createsGrant op = false) (hstep : step s ctx op = some s') :
    s'.plugins = s.plugins ∨
    (∃ key q, lookupKV key s.plugins = some q ∧
      s'.plugins = setKV key { q with lastCalled := ctx.round } s.plugins) ∨
    (∃ key, s'.plugins = eraseKV key s.plugins) := by
  cases op with
  | updateApp v =>
      by_cases ha : isAdmin s ctx.sender = true
      · simp [step, updateApplication, ha] at hstep
        subst hstep
        exact Or.inl rfl
      · simp [step, updateApplication, ha] at hstep
  | changeRevocation r =>
      by_cases ha : isAdmin s ctx.sender = true
      · simp [step, changeRevocationApp, ha] at hstep
        subst hstep
        exact Or.inl rfl
      · simp [step, changeRevocationApp, ha] at hstep
  | changeAdmin a =>
      by_cases ha : isAdmin s ctx.sender = true
      · simp [step, arc58_changeAdmin, ha] at hstep
        subst hstep
        exact Or.inl rfl
      · simp [step, arc58_changeAdmin, ha] at hstep
  | pluginChangeAdmin pl c a =>
      by_cases h1 : ctx.sender = Addr.ofApp pl
      · by_cases h2 : ctx.authAddr = Addr.ofApp pl
        · cases hl : lookupKV ⟨pl, c⟩ s.plugins with
          | none => simp [step, arc58_pluginChangeAdmin, h1, h2, hl] at hstep
          | some q =>
              by_cases hq : q.adminPrivileges = 0
              · simp [step, arc58_pluginChangeAdmin, h1, h2, hl, hq] at hstep
              · simp [step, arc58_pluginChangeAdmin, h1, h2, hl, hq] at hstep
                subst hstep
                exact Or.inl rfl
        · simp [step, arc58_pluginChangeAdmin, h1, h2] at hstep
      · simp [step, arc58_pluginChangeAdmin, h1] at hstep
  | verifyAuthAddr =>
      by_cases hv : ctx.authAddr = getAuthAddr s ctx.appId
      · simp [step, arc58_verifyAuthAddr, hv] at hstep
        subst hstep
        exact Or.inl rfl
      · simp [step, arc58_verifyAuthAddr, hv] at hstep
  | rekeyTo a =>
      by_cases ha : isAdmin s ctx.sender = true
      · by_cases hvb : verifyRekeyBack s.controlledAddress ctx.appId
            ctx.group ctx.groupIndex = true
        · simp [step, arc58_rekeyTo, ha, hvb] at hstep
          subst hstep
          exact Or.inl rfl
        · simp [step, arc58_rekeyTo, ha, hvb] at hstep
      · simp [step, arc58_rekeyTo, ha] at hstep
  | rekeyToPlugin pl =>
      obtain ⟨key, q, hl, hs'⟩ := rekeyToPlugin_some_shape s ctx pl s' hstep
      exact Or.inr (Or.inl ⟨key, q, hl, by rw [hs']⟩)
  | rekeyToNamedPlugin n =>
      cases hn : lookupKV n s.namedPlugins with
      | none => simp [step, arc58_rekeyToNamedPlugin, hn] at hstep
      | some k =>
          simp only [step, arc58_rekeyToNamedPlugin, hn] at hstep
          obtain ⟨key, q, hl, hs'⟩ :=
            rekeyToPlugin_some_shape s ctx k.application s' hstep
          exact Or.inr (Or.inl ⟨key, q, hl, by rw [hs']⟩)
  | addPlugin a c lvr cd priv pk dom => simp [Op.createsGrant] at hop
  | removePlugin a c =>
      by_cases hauth : (isAdmin s ctx.sender || canRevoke s ctx.sender) = true
      · simp [step, arc58_removePlugin, hauth] at hstep
        subst hstep
        exact Or.inr (Or.inr ⟨⟨a, c⟩, rfl⟩)
      · simp [step, arc58_removePlugin, hauth] at hstep
  | addNamedPlugin n a c lvr cd priv => simp [Op.createsGrant] at hop
  | removeNamedPlugin n =>
      by_cases hauth : (isAdmin s ctx.sender || canRevoke s ctx.sender) = true
      · cases hn : lookupKV n s.namedPlugins with
        | none => simp [step, arc58_removeNamedPlugin, hauth, hn] at hstep
        | some k =>
            simp [step, arc58_removeNamedPlugin, hauth, hn] at hstep
            subst hstep
            exact Or.inr (Or.inr ⟨k, rfl⟩)
      · simp [step, arc58_removeNamedPlugin, hauth] at hstep

/-- C5 (amended): under every operation other than `arc58_addPlugin` and
`arc58_addNamedPlugin` (which overwrite a grant with `lastCalled = 0`), a
grant's `lastCalled` never decreases, provided the current round is at least
the stored `lastCalled`. -/
theorem lastCalled_monotone (s : State) (ctx : Ctx) (op : Op) (s' : State)
    (hop : Op.createsGrant op = false)
    (hstep : step s ctx op = some s')
    (k : PluginsKey) (p p' : PluginInfo)
    (hp : lookupKV k s.plugins = some p)
    (hp' : lookupKV k s'.plugins = some p')
    (hround : p.lastCalled ≤ ctx.round) :
    p.lastCalled ≤ p'.lastCalled := by
  rcases step_plugins_shape s ctx op s' hop hstep with hsame | ⟨key, q, hq, hset⟩
    | ⟨key, herase⟩
  · rw [hsame, hp] at hp'
    cases hp'
    exact le_refl _
  · by_cases hk : k = key
    · subst hk
      rw [hset, lookupKV_set_self] at hp'
      cases hp'
      exact hround
    · rw [hset, lookupKV_set_ne _ _ hk, hp] at hp'
      cases hp'
      exact le_refl _
  · by_cases hk : k = key
    · subst hk
      rw [herase, lookupKV_erase_self] at hp'
      cases hp'
    · rw [herase, lookupKV_erase_ne _ hk, hp] at hp'
      cases hp'
      exact le_refl _

/-- The state reached after delegating to plugin 50 at round 5: the wildcard
grant's `lastCalled` is 5. -/
def c5s2 : State :=
  { version := "1"
    factoryApp := 9
    admin := Addr.acct 2
    controlledAddress := Addr.acct 1
    revocationApp := 7
    plugins := [(⟨50, zeroAddr⟩, ⟨1000, 0, 5, 0⟩)]
    passkeys := []
    namedPlugins := [] }

theorem lastCalled_monotone_witness : (0 : Nat) ≤ 5 :=
  lastCalled_monotone c3State c3Ctx (Op.rekeyToPlugin 50) c5s2 (by decide)
    (by decide) ⟨50, zeroAddr⟩ ⟨1000, 0, 0, 0⟩ ⟨1000, 0, 5, 0⟩ (by decide)
    (by decide) (by decide)

/-- The freshly created contract state (admin account 2, controlled
account 1, revocation app 7, minted by factory app 9 as app 100). -/
def baseState : State :=
  { version := "1"
    factoryApp := 9
    admin := Addr.acct 2
    controlledAddress := Addr.acct 1
    revocationApp := 7
    plugins := []
    passkeys := []
    namedPlugins := [] }

/-- An admin-sent call context with an empty group (sufficient for the
registration operations, which do not scan the group). -/
def adminCtx : Ctx :=
  { sender := Addr.acct 2
    round := 6
    appId := 100
    authAddr := Addr.acct 1
    group := []
    groupIndex := 0 }

/-- C5 counterexample: in a reachable state whose wildcard grant for
plugin 50 has `lastCalled = 5`, the admin's `arc58_addPlugin` for the same
key succeeds and stores `lastCalled = 0 < 5`, so `lastCalled` is not
monotonically non-decreasing over all operations. -/
theorem lastCalled_monotone_cex :
    Reachable c5s2 ∧
    lookupKV (⟨50, zeroAddr⟩ : PluginsKey) c5s2.plugins =
      some ⟨1000, 0, 5, 0⟩ ∧
    step c5s2 adminCtx (Op.addPlugin 50 zeroAddr 1000 0 false false "") =
      some c3State ∧
    lookupKV (⟨50, zeroAddr⟩ : PluginsKey) c3State.plugins =
      some ⟨1000, 0, 0, 0⟩ ∧
    (0 : Nat) < 5 := by
  refine ⟨?_, by decide, by decide, by decide, by decide⟩
  have h0 : Reachable baseState :=
    Reachable.created "1" (Addr.acct 1) (Addr.acct 2) 7 9 100 baseState
      (by decide)
  have h1 : Reachable c3State :=
    Reachable.stepped baseState adminCtx
      (Op.addPlugin 50 zeroAddr 1000 0 false false "") c3State h0 (by decide)
  exact Reachable.stepped c3State c3Ctx (Op.rekeyToPlugin 50) c5s2 h1
    (by decide)

/-- C6 (amended): a successful `arc58_removeNamedPlugin` deletes the name
mapping and the grant at its resolved key together, touching no other name
or grant. -/
theorem removeNamedPlugin_spec (s : State) (sender : Addr) (name : String)
    (s' : State) (h : arc58_removeNamedPlugin s sender name = some s') :
    ∃ k, lookupKV name s.namedPlugins = some k ∧
      lookupKV name s'.namedPlugins = none ∧
      lookupKV k s'.plugins = none ∧
      (∀ n', n' ≠ name →
        lookupKV n' s'.namedPlugins = lookupKV n' s.namedPlugins) ∧
      (∀ k', k' ≠ k → lookupKV k' s'.plugins = lookupKV k' s.plugins) := by
  by_cases hauth : (isAdmin s sender || canRevoke s sender) = true
  · cases hn : lookupKV name s.namedPlugins with
    | none => simp [arc58_removeNamedPlugin, hauth, hn] at h
    | some k =>
        simp [arc58_removeNamedPlugin, hauth, hn] at h
        subst h
        exact ⟨k, rfl, lookupKV_erase_self _ _, lookupKV_erase_self _ _,
          fun n' hn' => lookupKV_erase_ne _ hn',
          fun k' hk' => lookupKV_erase_ne _ hk'⟩
  · simp [arc58_removeNamedPlugin, hauth] at h

/-- The state after registering the named plugin `x` on a fresh account. -/
def c6s1 : State :=
  { version := "1"
    factoryApp := 9
    admin := Addr.acct 2
    controlledAddress := Addr.acct 1
    revocationApp := 7
    plugins := [(⟨50, zeroAddr⟩, ⟨1000, 0, 0, 0⟩)]
    passkeys := []
    namedPlugins := [("x", ⟨50, zeroAddr⟩)] }

/-- A reachable state in which the name `x` maps to a grant key that holds
no grant. -/
def c6Bad : State :=
  { version := "1"
    factoryApp := 9
    admin := Addr.acct 2
    controlledAddress := Addr.acct 1
    revocationApp := 7
    plugins := []
    passkeys := []
    namedPlugins := [("x", ⟨50, zeroAddr⟩)] }

theorem removeNamedPlugin_spec_witness :
    lookupKV "x" c6Bad.namedPlugins = some ⟨50, zeroAddr⟩ ∧
    ∃ k, lookupKV "x" c6s1.namedPlugins = some k ∧
      lookupKV "x" ({ c6s1 with
        namedPlugins := eraseKV "x" c6s1.namedPlugins
        plugins := eraseKV (⟨50, zeroAddr⟩ : PluginsKey) c6s1.plugins } :
          State).namedPlugins = none ∧
      lookupKV k ({ c6s1 with
        namedPlugins := eraseKV "x" c6s1.namedPlugins
        plugins := eraseKV (⟨50, zeroAddr⟩ : PluginsKey) c6s1.plugins } :
          State).plugins = none ∧
      (∀ n', n' ≠ "x" →
        lookupKV n' ({ c6s1 with
          namedPlugins := eraseKV "x" c6s1.namedPlugins
          plugins := eraseKV (⟨50, zeroAddr⟩ : PluginsKey) c6s1.plugins } :
            State).namedPlugins = lookupKV n' c6s1.namedPlugins) ∧
      (∀ k', k' ≠ k →
        lookupKV k' ({ c6s1 with
          namedPlugins := eraseKV "x" c6s1.namedPlugins
          plugins := eraseKV (⟨50, zeroAddr⟩ : PluginsKey) c6s1.plugins } :
            State).plugins = lookupKV k' c6s1.plugins) :=
  ⟨by decide,
   removeNamedPlugin_spec c6s1 (Addr.acct 2) "x" _ (by decide)⟩

/-- C6 counterexample: from a reachable state holding the named plugin `x`,
`arc58_removePlugin` deletes the underlying grant while leaving the name
mapping, so a NamedGrant can point at a deleted Grant. -/
theorem namedGrant_dangling_cex :
    Reachable c6Bad ∧
    step c6s1 adminCtx (Op.removePlugin 50 zeroAddr) = some c6Bad ∧
    lookupKV "x" c6Bad.namedPlugins = some ⟨50, zeroAddr⟩ ∧
    lookupKV (⟨50, zeroAddr⟩ : PluginsKey) c6Bad.plugins = none := by
  refine ⟨?_, by decide, by decide, by decide⟩
  have h0 : Reachable baseState :=
    Reachable.created "1" (Addr.acct 1) (Addr.acct 2) 7 9 100 baseState
      (by decide)
  have h1 : Reachable c6s1 :=
    Reachable.stepped baseState adminCtx
      (Op.addNamedPlugin "x" 50 zeroAddr 1000 0 false) c6s1 h0 (by decide)
  exact Reachable.stepped c6s1 adminCtx (Op.removePlugin 50 zeroAddr) c6Bad h1
    (by decide)
